import Mathlib

/-!
Verification of the Sphinx documentation configuration `docs/conf.py` of
the Strata TypeScript Tutor repository.

The module is a sequence of top-level bindings evaluated once.  Its only
dynamic behaviour is an attempt to read and JSON-parse `../package.json`
for a `version` field, falling back to the literal `"1.0.0"` on any
failure, plus one mutation of interpreter state (`sys.path.insert`).
We embed the module evaluation as a function from the pre-existing
interpreter/filesystem state to the resulting state and configuration.
-/

namespace TsTutorConf

/-- JSON values as produced by Python's `json.load`.  Numbers are modelled
as integers; the configuration only ever compares parsed values for
equality and the literals occurring in the file are integers. -/
inductive Json where
  | null : Json
  | bool (b : Bool) : Json
  | num (n : Int) : Json
  | str (s : String) : Json
  | arr (elems : List Json) : Json
  | obj (fields : List (String × Json)) : Json

/-- The state of the external manifest file `../package.json` as the
version-reading code observes it: the file cannot be opened or read, its
content is not valid JSON, or it parses to a JSON value `j`.  An `obj`
field list records the key/value pairs in textual order; Python's dict
keeps the last occurrence of a duplicated key. -/
inductive ManifestState where
  | missing : ManifestState
  | unparseable : ManifestState
  | parsed (j : Json) : ManifestState

/-- The exceptions the `try` block of `conf.py` can raise: `open` fails
(`OSError`), `json.load` fails (`json.JSONDecodeError`), or `.get` is
called on a non-dict value (`AttributeError`).  All are subclasses of
`Exception` and hence caught by the `except Exception` clause. -/
inductive PyErr where
  | osError : PyErr
  | jsonDecodeError : PyErr
  | attributeError : PyErr
deriving DecidableEq

/-- Python `dict.get(key, default)` on the dict built by `json.load` from
the field list `fields`: the value of the last binding of `key`, or
`default` when `key` is absent. -/
def dictGet (fields : List (String × Json)) (key : String) (dflt : Json) : Json :=
  match fields.reverse.find? (fun p => p.1 == key) with
  | some p => p.2
  | none => dflt

/-- The body of the `try` block of lines 16-19 of `conf.py`:
`json.load(open("../package.json")).get("version", "1.0.0")`, with each
Python failure made explicit as an `Except.error`. -/
def releaseTry : ManifestState → Except PyErr Json
  | ManifestState.missing => Except.error PyErr.osError
  | ManifestState.unparseable => Except.error PyErr.jsonDecodeError
  | ManifestState.parsed (Json.obj fields) =>
      Except.ok (dictGet fields "version" (Json.str "1.0.0"))
  | ManifestState.parsed _ => Except.error PyErr.attributeError

/-- The `release` binding of `conf.py` (lines 16-21): the `try` body, with
the `except Exception` clause turning every error into the literal
`"1.0.0"`. -/
def computeRelease (m : ManifestState) : Json :=
  match releaseTry m with
  | Except.ok v => v
  | Except.error _ => Json.str "1.0.0"

/-- All configuration bindings of `conf.py`, with the source's names. -/
structure SphinxConfig where
  project : String
  copyright : String
  author : String
  release : Json
  extensions : List String
  templates_path : List String
  exclude_patterns : List String
  source_suffix : List (String × String)
  html_theme : String
  html_static_path : List String
  html_title : String
  html_theme_options : List (String × Json)
  autodoc_default_options : List (String × Json)
  autodoc_typehints : String
  autodoc_class_signature : String
  autosummary_generate : Bool
  napoleon_google_docstring : Bool
  napoleon_numpy_docstring : Bool
  napoleon_include_init_with_doc : Bool
  napoleon_use_param : Bool
  napoleon_use_rtype : Bool
  intersphinx_mapping : List (String × (String × Option String))
  myst_enable_extensions : List String
  myst_heading_anchors : Nat

/-- `project = "Strata TypeScript Tutor"` (line 11). -/
def project : String := "Strata TypeScript Tutor"

/-- The configuration built by `conf.py` when the `release` binding
evaluates to `rel`: every other binding is the literal written in the
source; `html_title` is the f-string of line 52. -/
def mkConfig (rel : Json) : SphinxConfig where
  project := project
  copyright := "2025, Jon Bogaty"
  author := "Jon Bogaty"
  release := rel
  extensions :=
    ["sphinx.ext.autodoc", "sphinx.ext.autosummary", "sphinx.ext.napoleon",
     "sphinx.ext.viewcode", "sphinx.ext.intersphinx",
     "sphinx_autodoc_typehints", "myst_parser"]
  templates_path := ["_templates"]
  exclude_patterns := ["_build", "Thumbs.db", ".DS_Store"]
  source_suffix := [(".rst", "restructuredtext"), (".md", "markdown")]
  html_theme := "sphinx_rtd_theme"
  html_static_path := ["_static"]
  html_title := project ++ " Documentation"
  html_theme_options :=
    [("navigation_depth", Json.num 4),
     ("collapse_navigation", Json.bool false),
     ("sticky_navigation", Json.bool true),
     ("includehidden", Json.bool true),
     ("titles_only", Json.bool false)]
  autodoc_default_options :=
    [("members", Json.bool true),
     ("member-order", Json.str "bysource"),
     ("special-members", Json.str "__init__"),
     ("undoc-members", Json.bool true),
     ("exclude-members", Json.str "__weakref__"),
     ("show-inheritance", Json.bool true)]
  autodoc_typehints := "description"
  autodoc_class_signature := "separated"
  autosummary_generate := true
  napoleon_google_docstring := true
  napoleon_numpy_docstring := true
  napoleon_include_init_with_doc := true
  napoleon_use_param := true
  napoleon_use_rtype := true
  intersphinx_mapping := [("python", ("https://docs.python.org/3", none))]
  myst_enable_extensions := ["colon_fence", "deflist", "fieldlist", "tasklist"]
  myst_heading_anchors := 3

/-- The configuration `conf.py` produces for manifest state `m`. -/
def loadConf (m : ManifestState) : SphinxConfig := mkConfig (computeRelease m)

/-- The pre-existing interpreter and filesystem state `conf.py` is
evaluated in: the module search path `sys.path` and the manifest file. -/
structure PyState where
  sysPath : List String
  manifest : ManifestState

/-- Evaluation of the whole module in state `st`, with
`srcAbs = os.path.abspath("../src")` the resolved source directory (its
value depends on the working directory and is irrelevant to every other
binding).  Line 8 prepends `srcAbs` to `sys.path`; the `release` binding
is the `try` body with the `except Exception` handler; every other
binding is a literal.  An uncaught exception would surface as
`Except.error`. -/
def loadModule (srcAbs : String) (st : PyState) : Except PyErr (PyState × SphinxConfig) :=
  let st1 : PyState := { sysPath := srcAbs :: st.sysPath, manifest := st.manifest }
  match releaseTry st.manifest with
  | Except.ok rel => Except.ok (st1, mkConfig rel)
  | Except.error _ => Except.ok (st1, mkConfig (Json.str "1.0.0"))

/-- Evaluation of the module with the `except Exception` handler of line
20 removed, so that any exception raised by any binding propagates.  Used
to locate the module's error paths. -/
def loadModuleBare (srcAbs : String) (st : PyState) : Except PyErr (PyState × SphinxConfig) :=
  let st1 : PyState := { sysPath := srcAbs :: st.sysPath, manifest := st.manifest }
  match releaseTry st.manifest with
  | Except.ok rel => Except.ok (st1, mkConfig rel)
  | Except.error e => Except.error e

/-! ### Helper lemmas -/

theorem find?_reverse_of_nodup_lookup (k : String) (v : Json) :
    ∀ fields : List (String × Json), (fields.map Prod.fst).Nodup →
      fields.lookup k = some v →
      fields.reverse.find? (fun p => p.1 == k) = some (k, v) := by
  intro fields
  induction fields with
  | nil => intro _ h; simp at h
  | cons hd tl ih =>
      obtain ⟨a, b⟩ := hd
      intro hnd h
      rw [List.map_cons, List.nodup_cons] at hnd
      rw [List.reverse_cons, List.find?_append]
      cases hka : (k == a) with
      | true =>
          have hk : k = a := eq_of_beq hka
          subst hk
          simp only [List.lookup_cons, beq_self_eq_true] at h
          have hb : b = v := Option.some.inj h
          subst hb
          have hnone : tl.reverse.find? (fun p => p.1 == k) = none := by
            rw [List.find?_eq_none]
            intro x hx hpx
            apply hnd.1
            have hx1 : x.1 = k := by simpa using hpx
            have hmem : x.1 ∈ tl.map Prod.fst :=
              List.mem_map_of_mem Prod.fst (List.mem_reverse.mp hx)
            rwa [hx1] at hmem
          rw [hnone]
          simp [List.find?]
      | false =>
          simp only [List.lookup_cons, hka] at h
          rw [ih hnd.2 h]
          rfl

theorem dictGet_of_lookup (k : String) (d v : Json) (fields : List (String × Json))
    (hnd : (fields.map Prod.fst).Nodup) (h : fields.lookup k = some v) :
    dictGet fields k d = v := by
  unfold dictGet
  rw [find?_reverse_of_nodup_lookup k v fields hnd h]

theorem dictGet_of_not_mem (k : String) (d : Json) (fields : List (String × Json))
    (h : k ∉ fields.map Prod.fst) :
    dictGet fields k d = d := by
  unfold dictGet
  have hnone : fields.reverse.find? (fun p => p.1 == k) = none := by
    rw [List.find?_eq_none]
    intro x hx hpx
    apply h
    have hx1 : x.1 = k := by simpa using hpx
    have hmem : x.1 ∈ fields.map Prod.fst :=
      List.mem_map_of_mem Prod.fst (List.mem_reverse.mp hx)
    rwa [hx1] at hmem
  rw [hnone]

/-- Module evaluation always succeeds and its effect on pre-existing state
is exactly one prepend to `sys.path`; the produced configuration is
`loadConf` of the manifest state.  Shared helper for the claims below. -/
theorem loadModule_eq (srcAbs : String) (st : PyState) :
    loadModule srcAbs st =
      Except.ok ({ sysPath := srcAbs :: st.sysPath, manifest := st.manifest },
                 loadConf st.manifest) := by
  unfold loadModule loadConf mkConfig computeRelease
  cases releaseTry st.manifest <;> rfl

/-! ### Claims -/

/-- Claim C1: for every manifest whose content is valid JSON parsing to an
object that contains a `version` field, the computed release value equals
that field's value.  The Nodup hypothesis reflects that a Python dict
binds each key once. -/
theorem release_eq_version_field (fields : List (String × Json)) (v : Json)
    (hnd : (fields.map Prod.fst).Nodup) (h : fields.lookup "version" = some v) :
    computeRelease (ManifestState.parsed (Json.obj fields)) = v := by
  have hc : computeRelease (ManifestState.parsed (Json.obj fields)) =
      dictGet fields "version" (Json.str "1.0.0") := rfl
  rw [hc]
  exact dictGet_of_lookup _ _ _ _ hnd h

/-- Witness for C1: a one-field manifest object with version `"2.3.4"`. -/
theorem release_eq_version_field_witness :
    (([("version", Json.str "2.3.4")] : List (String × Json)).map Prod.fst).Nodup ∧
    ([("version", Json.str "2.3.4")] : List (String × Json)).lookup "version" =
      some (Json.str "2.3.4") ∧
    computeRelease (ManifestState.parsed (Json.obj [("version", Json.str "2.3.4")])) =
      Json.str "2.3.4" :=
  ⟨by simp, by simp, release_eq_version_field _ _ (by simp) (by simp)⟩

/-- Claim C2: for a missing or unparseable manifest, and for a parsed
manifest object lacking the `version` field, the release value is the
fallback literal `"1.0.0"`. -/
theorem release_fallback_on_failure (m : ManifestState)
    (h : m = ManifestState.missing ∨ m = ManifestState.unparseable ∨
      ∃ fields, m = ManifestState.parsed (Json.obj fields) ∧
        "version" ∉ fields.map Prod.fst) :
    computeRelease m = Json.str "1.0.0" := by
  rcases h with h | h | ⟨fields, h, hnm⟩
  · subst h; rfl
  · subst h; rfl
  · subst h
    have hc : computeRelease (ManifestState.parsed (Json.obj fields)) =
        dictGet fields "version" (Json.str "1.0.0") := rfl
    rw [hc]
    exact dictGet_of_not_mem _ _ _ hnm

/-- Witness for C2: the missing-file case. -/
theorem release_fallback_on_failure_witness :
    (ManifestState.missing = ManifestState.missing ∨
      ManifestState.missing = ManifestState.unparseable ∨
      ∃ fields, ManifestState.missing = ManifestState.parsed (Json.obj fields) ∧
        "version" ∉ fields.map Prod.fst) ∧
    computeRelease ManifestState.missing = Json.str "1.0.0" :=
  ⟨Or.inl rfl, release_fallback_on_failure ManifestState.missing (Or.inl rfl)⟩

/-- Claim C3: extension list, theme options, and the autodoc, napoleon and
myst settings equal exactly their declared literal values on every load,
whatever the manifest state. -/
theorem static_settings_exact (m : ManifestState) :
    (loadConf m).extensions =
      ["sphinx.ext.autodoc", "sphinx.ext.autosummary", "sphinx.ext.napoleon",
       "sphinx.ext.viewcode", "sphinx.ext.intersphinx",
       "sphinx_autodoc_typehints", "myst_parser"] ∧
    (loadConf m).html_theme_options =
      [("navigation_depth", Json.num 4),
       ("collapse_navigation", Json.bool false),
       ("sticky_navigation", Json.bool true),
       ("includehidden", Json.bool true),
       ("titles_only", Json.bool false)] ∧
    (loadConf m).autodoc_default_options =
      [("members", Json.bool true),
       ("member-order", Json.str "bysource"),
       ("special-members", Json.str "__init__"),
       ("undoc-members", Json.bool true),
       ("exclude-members", Json.str "__weakref__"),
       ("show-inheritance", Json.bool true)] ∧
    (loadConf m).autodoc_typehints = "description" ∧
    (loadConf m).autodoc_class_signature = "separated" ∧
    (loadConf m).autosummary_generate = true ∧
    (loadConf m).napoleon_google_docstring = true ∧
    (loadConf m).napoleon_numpy_docstring = true ∧
    (loadConf m).napoleon_include_init_with_doc = true ∧
    (loadConf m).napoleon_use_param = true ∧
    (loadConf m).napoleon_use_rtype = true ∧
    (loadConf m).myst_enable_extensions =
      ["colon_fence", "deflist", "fieldlist", "tasklist"] ∧
    (loadConf m).myst_heading_anchors = 3 :=
  ⟨rfl, rfl, rfl, rfl, rfl, rfl, rfl, rfl, rfl, rfl, rfl, rfl, rfl⟩

/-- Claim C4: for every manifest state, module evaluation completes
normally; no exception escapes the configuration load. -/
theorem load_completes_normally (srcAbs : String) (st : PyState) :
    ∃ r, loadModule srcAbs st = Except.ok r :=
  ⟨_, loadModule_eq srcAbs st⟩

/-- Counterexample to Claim C5 as stated: the module search path IS
modified.  Starting from an empty `sys.path`, after the load `sys.path`
is not empty any more (line 8 of `conf.py` inserts the source
directory). -/
theorem sys_path_is_mutated :
    ¬ ((loadModule "/abs/src"
          { sysPath := [], manifest := ManifestState.missing }).map
        (fun r => r.1.sysPath) = Except.ok ([] : List String)) := by
  intro hcontra
  simp [loadModule, releaseTry, Except.map] at hcontra

/-- Claim C5 amended: loading the configuration mutates exactly one piece
of pre-existing state, prepending the resolved source directory to the
module search path; the manifest is untouched, nothing else is modified
and nothing is persisted. -/
theorem load_mutates_only_sys_path (srcAbs : String) (st : PyState) :
    loadModule srcAbs st =
      Except.ok ({ sysPath := srcAbs :: st.sysPath, manifest := st.manifest },
                 loadConf st.manifest) :=
  loadModule_eq srcAbs st

/-- Claim C6: the extension registry is exactly the seven identifiers, in
declared order, on every load. -/
theorem extensions_exact (m : ManifestState) :
    (loadConf m).extensions =
      ["sphinx.ext.autodoc", "sphinx.ext.autosummary", "sphinx.ext.napoleon",
       "sphinx.ext.viewcode", "sphinx.ext.intersphinx",
       "sphinx_autodoc_typehints", "myst_parser"] := rfl

/-- Claim C7: with the `except` handler removed, module evaluation fails
exactly when and how the manifest read/parse (`releaseTry`) fails: every
other binding is total and contributes no error path. -/
theorem only_manifest_read_can_fail (srcAbs : String) (st : PyState) :
    loadModuleBare srcAbs st = (releaseTry st.manifest).map
      (fun rel => (({ sysPath := srcAbs :: st.sysPath, manifest := st.manifest } : PyState),
                   mkConfig rel)) := by
  unfold loadModuleBare
  cases releaseTry st.manifest <;> rfl

/-- Claim C8: a manifest parsing to a non-object JSON value (array,
number, string, boolean or null) makes the field lookup raise; the
handler catches it and the release value is the fallback `"1.0.0"`. -/
theorem release_fallback_nonobject (j : Json)
    (h : ∀ fields, j ≠ Json.obj fields) :
    computeRelease (ManifestState.parsed j) = Json.str "1.0.0" := by
  cases j with
  | obj fields => exact absurd rfl (h fields)
  | null => rfl
  | bool b => rfl
  | num n => rfl
  | str s => rfl
  | arr xs => rfl

/-- Witness for C8: the empty JSON array. -/
theorem release_fallback_nonobject_witness :
    (∀ fields, Json.arr [] ≠ Json.obj fields) ∧
    computeRelease (ManifestState.parsed (Json.arr [])) = Json.str "1.0.0" :=
  ⟨fun _ hcontra => Json.noConfusion hcontra,
   release_fallback_nonobject (Json.arr []) (fun _ hcontra => Json.noConfusion hcontra)⟩

/-- Claim C9: the load is deterministic: two loads over identical manifest
state produce identical configurations (release value and every other
configuration value), whatever the rest of the environment. -/
theorem load_deterministic (a1 a2 : String) (s1 s2 : PyState)
    (h : s1.manifest = s2.manifest) :
    (loadModule a1 s1).map (fun r => r.2) = (loadModule a2 s2).map (fun r => r.2) := by
  rw [loadModule_eq, loadModule_eq, h]
  rfl

/-- Witness for C9: same missing manifest, different search paths and
resolved directories. -/
theorem load_deterministic_witness :
    ((⟨[], ManifestState.missing⟩ : PyState).manifest =
      (⟨["x"], ManifestState.missing⟩ : PyState).manifest) ∧
    (loadModule "/a" ⟨[], ManifestState.missing⟩).map (fun r => r.2) =
      (loadModule "/b" ⟨["x"], ManifestState.missing⟩).map (fun r => r.2) :=
  ⟨rfl, load_deterministic "/a" "/b" ⟨[], ManifestState.missing⟩
    ⟨["x"], ManifestState.missing⟩ rfl⟩

/-- Claim C10: `html_title` is the project string followed by
`" Documentation"`, i.e. `"Strata TypeScript Tutor Documentation"`, on
every load. -/
theorem html_title_from_project (m : ManifestState) :
    (loadConf m).html_title = (loadConf m).project ++ " Documentation" ∧
    (loadConf m).html_title = "Strata TypeScript Tutor Documentation" := by
  constructor
  · rfl
  · show project ++ " Documentation" = "Strata TypeScript Tutor Documentation"
    decide

end TsTutorConf
